import Mathlib

/-!
Verification of the MultiQC plotly plot module (`multiqc/plots/plotly/plot.py`).

The Python module is shallowly embedded below.  Python floats are modelled as
rationals (`ℚ`); `math.log10` is an external numeric primitive and is passed in
as an explicit function parameter `log10 : ℚ → ℚ` (every property proved here
holds for an arbitrary such function, mirroring the fact that the module never
inspects the numeric value it produces).  Python dictionaries with string keys
are modelled as association lists (`Conf`); dynamically typed config values as
the inductive `CVal`.  Python strings are modelled as Lean strings, with the
Python string operations (split / strip / replace / lower / containment)
re-implemented as structural recursions over the character list so that all
definitions evaluate inside the kernel.  Logging is modelled by returning the
list of emitted messages; `raise` / failed `assert` by `Except.error`.
External effects (actual pixel rendering, file writing, the watermarking in
`add_logo`) are outside the embedded core: `fig_to_static_html` returns the
data of the one static-image call it performs instead of an HTML string.
-/

set_option linter.unusedVariables false

namespace MultiQC

/-! ### Python string primitives -/

/-- Python whitespace characters, as used by `str.strip()`. -/
def pyWhitespace : List Char := [' ', '\t', '\n', '\r', '\x0b', '\x0c']

/-- Python `s.strip()`: remove whitespace from both ends. -/
def pyStrip (s : String) : String :=
  ⟨((s.data.dropWhile (fun c => c ∈ pyWhitespace)).reverse.dropWhile
      (fun c => c ∈ pyWhitespace)).reverse⟩

/-- Python `sub in s` on character lists. -/
def listContainsSub : List Char → List Char → Bool
  | l, sub =>
    if sub.isPrefixOf l then true
    else match l with
      | [] => false
      | _ :: t => listContainsSub t sub

/-- Python `sub in s`. -/
def pyContains (s sub : String) : Bool := listContainsSub s.data sub.data

/-- Python `s.startswith(pre)`. -/
def pyStartsWith (s pre : String) : Bool := pre.data.isPrefixOf s.data

/-- Python `s.endswith(suf)`. -/
def pyEndsWith (s suf : String) : Bool := suf.data.isSuffixOf s.data

/-- Python `s.lower()` (ASCII is all the module ever feeds it). -/
def pyLower (s : String) : String := ⟨s.data.map Char.toLower⟩

/-- Worker for `pySplit`; the fuel is the length of the list, which bounds the
number of steps, keeping the recursion structural (kernel-reducible). -/
def pySplitAux (sep : List Char) : ℕ → List Char → List Char → List (List Char)
  | _, [], acc => [acc.reverse]
  | 0, l, acc => [acc.reverse ++ l]
  | fuel + 1, c :: rest, acc =>
    if sep.isPrefixOf (c :: rest) then
      acc.reverse :: pySplitAux sep fuel (List.drop sep.length (c :: rest)) []
    else
      pySplitAux sep fuel rest (c :: acc)

/-- Python `s.split(sep)` for a non-empty separator. -/
def pySplit (s : String) (sep : String) : List String :=
  (pySplitAux sep.data s.data.length s.data []).map String.mk

/-- Worker for `pyReplace`; fuel as in `pySplitAux`. -/
def pyReplaceAux (pat rep : List Char) : ℕ → List Char → List Char
  | _, [] => []
  | 0, l => l
  | fuel + 1, c :: t =>
    if pat.isPrefixOf (c :: t) && !pat.isEmpty then
      rep ++ pyReplaceAux pat rep fuel (List.drop pat.length (c :: t))
    else
      c :: pyReplaceAux pat rep fuel t

/-- Python `s.replace(pat, rep)` for a non-empty pattern. -/
def pyReplace (s pat rep : String) : String :=
  ⟨pyReplaceAux pat.data rep.data s.data.length s.data⟩

/-- Worker producing the decimal digits of `n` most-significant first; fuel
keeps the recursion structural. -/
def pyStrAux : ℕ → ℕ → List Char
  | 0, _ => []
  | fuel + 1, n =>
    if n = 0 then [] else pyStrAux fuel (n / 10) ++ [Nat.digitChar (n % 10)]

/-- Python `str(n)` / `f"{n}"` for a natural number: decimal representation. -/
def pyStr (n : ℕ) : String :=
  if n = 0 then "0" else ⟨pyStrAux (n + 1) n⟩

/-- Python `f"{i}"` for a (possibly negative) integer. -/
def pyStrInt (i : ℤ) : String :=
  if i < 0 then "-" ++ pyStr i.natAbs else pyStr i.toNat

/-! ### Dynamically typed config values -/

/-- A dynamically typed Python value as it appears inside a plot config. -/
inductive CVal where
  | vstr (s : String)
  | vnum (q : ℚ)
  | vbool (b : Bool)
  | vnone
  | vlist (xs : List CVal)
  | vdict (xs : List (String × CVal))

/-- Python truthiness of a `CVal`. -/
def CVal.truthy : CVal → Bool
  | .vstr s => !s.data.isEmpty
  | .vnum q => decide (q ≠ 0)
  | .vbool b => b
  | .vnone => false
  | .vlist xs => !xs.isEmpty
  | .vdict xs => !xs.isEmpty

/-- Python `v is True` (identity with the `True` singleton). -/
def CVal.isTrueLit : CVal → Bool
  | .vbool true => true
  | _ => false

/-- Python `v is False` (identity with the `False` singleton). -/
def CVal.isFalseLit : CVal → Bool
  | .vbool false => true
  | _ => false

/-- View a value as a string (the module would feed a non-string value of
these keys straight into a string operation or into plotly; such values are
modelled as absent). -/
def CVal.str? : CVal → Option String
  | .vstr s => some s
  | _ => none

/-- View a value as a number. -/
def CVal.num? : CVal → Option ℚ
  | .vnum q => some q
  | _ => none

/-- View a value as an integer (decimal-precision hints). -/
def CVal.int? : CVal → Option ℤ
  | .vnum q => if q.den = 1 then some q.num else none
  | _ => none

/-- Is the value a `str` or a `dict` (the two valid `data_labels` entry
types)? -/
def CVal.isStrOrDict : CVal → Bool
  | .vstr _ => true
  | .vdict _ => true
  | _ => false

/-- Python `type(v)` rendered for the warning message. -/
def CVal.pyTypeName : CVal → String
  | .vstr _ => "str"
  | .vnum _ => "float"
  | .vbool _ => "bool"
  | .vnone => "NoneType"
  | .vlist _ => "list"
  | .vdict _ => "dict"

/-- A Python `dict` with string keys: an association list (keys unique). -/
abbrev Conf : Type := List (String × CVal)

/-- Python `d.get(k)` / `d[k]` presence included. -/
def Conf.get? (c : Conf) (k : String) : Option CVal := List.lookup k c

/-- Python `d.get(k, default)`. -/
def Conf.getD (c : Conf) (k : String) (d : CVal) : CVal := (c.get? k).getD d

/-- Python `d.get(k1, d.get(k2))`. -/
def Conf.rawget2 (c : Conf) (k1 k2 : String) : Option CVal :=
  match c.get? k1 with
  | some v => some v
  | none => c.get? k2

/-- Python `d.get(k1, d.get(k2, d.get(k3)))`. -/
def Conf.rawget3 (c : Conf) (k1 k2 k3 : String) : Option CVal :=
  match c.get? k1 with
  | some v => some v
  | none => c.rawget2 k2 k3

/-- `d.get(k)` viewed as a string. -/
def Conf.getStr? (c : Conf) (k : String) : Option String := (c.get? k).bind CVal.str?

/-- `d.get(k)` viewed as a number. -/
def Conf.getNum? (c : Conf) (k : String) : Option ℚ := (c.get? k).bind CVal.num?

/-- Python `d.pop(k)`: the value and the dict without the key, or `KeyError`. -/
def Conf.pop (c : Conf) (k : String) : Except String (CVal × Conf) :=
  match List.lookup k c with
  | some v => Except.ok (v, c.filter (fun kv => kv.1 != k))
  | none => Except.error ("KeyError: " ++ k)

/-- Python `d[k] = v`: replace in place, or append a fresh key at the end. -/
def Conf.setKey : Conf → String → CVal → Conf
  | [], k, v => [(k, v)]
  | (k1, v1) :: t, k, v =>
    if k1 = k then (k, v) :: t else (k1, v1) :: Conf.setKey t k v

/-- Python `base.copy(); base.update(upd)`: entries of `upd` win. -/
def Conf.update (base upd : Conf) : Conf :=
  base.filter (fun kv => (Conf.get? upd kv.1).isNone) ++ upd

/-! ### Plot data model -/

/-- `PlotType` enumeration (plot.py lines 24-34). -/
inductive PlotType where
  | line
  | violin
  | bar
  | scatter
  | heatmap
  | box
deriving DecidableEq

/-- The axes whose layout entries the module manipulates
(`axis_controlled_by_switches` holds names from this set). -/
inductive AxisKey where
  | xaxis
  | yaxis
deriving DecidableEq

/-- A plotly axis `type` value as the module sets it. -/
inductive AxisKind where
  | linear
  | log
deriving DecidableEq

/-- The `autorangeoptions` sub-dictionary of an axis. -/
structure AutoRangeOptions where
  clipmin : Option ℚ
  clipmax : Option ℚ
  minallowed : Option ℚ
  maxallowed : Option ℚ
deriving DecidableEq

/-- The slice of a plotly axis layout the module reads or writes. -/
structure Axis where
  type : AxisKind
  ticksuffix : String
  hoverformat : Option String
  title : Option String
  rangemode : String
  autorangeoptions : AutoRangeOptions
deriving DecidableEq

/-- The slice of the plotly `go.Layout` the module reads or writes (the
purely cosmetic constant fields - colors, fonts, margins - carry no
information and are omitted). -/
structure Layout where
  title : Option String
  xaxis : Axis
  yaxis : Axis
  height : Option ℚ
  width : Option ℚ
  showlegend : Bool
deriving DecidableEq

/-- `layout[axis]` read access. -/
def Layout.getAxis (l : Layout) : AxisKey → Axis
  | .xaxis => l.xaxis
  | .yaxis => l.yaxis

/-- `layout[axis] = ...` write access. -/
def Layout.setAxis (l : Layout) : AxisKey → Axis → Layout
  | .xaxis, a => { l with xaxis := a }
  | .yaxis, a => { l with yaxis := a }

/-- The per-axis layout dictionary built by `_dataset_layout` (it always
sets exactly these keys). -/
structure DsAxis where
  hoverformat : Option String
  ticksuffix : String
  title : Option String
  rangemode : String
  autorangeoptions : AutoRangeOptions
deriving DecidableEq

/-- The layout dictionary built by `_dataset_layout`. -/
structure DsLayout where
  title : Option String
  xaxis : DsAxis
  yaxis : DsAxis
deriving DecidableEq

/-- Trace params built by `_dataset_layout` (a `hovertemplate` entry or
nothing). -/
structure TraceParams where
  hovertemplate : Option String
deriving DecidableEq

/-- One axis entry of a dataset's `pct_range` dictionary (fields are the
optional `min` / `max` keys). -/
structure PctMM where
  min : Option ℚ
  max : Option ℚ
deriving DecidableEq

/-- A dataset's `pct_range` dictionary (per-axis entries, each optional). -/
structure PctRange where
  xaxis : Option PctMM
  yaxis : Option PctMM
deriving DecidableEq

/-- `pct_range.get(axis, {})`. -/
def PctRange.getAxis (r : PctRange) : AxisKey → Option PctMM
  | .xaxis => r.xaxis
  | .yaxis => r.yaxis

/-- `pct_range.get(axis, {}).get("min", 0)`. -/
def PctRange.minOf (r : PctRange) (a : AxisKey) : ℚ :=
  ((r.getAxis a).bind PctMM.min).getD 0

/-- `pct_range.get(axis, {}).get("max", 100)`. -/
def PctRange.maxOf (r : PctRange) (a : AxisKey) : ℚ :=
  ((r.getAxis a).bind PctMM.max).getD 100

/-- `BaseDataset` (plot.py lines 37-50).  `label` is dynamically typed in the
source (the loop in `Plot.initialize` assigns it whatever the dataset override
holds), so it is a `CVal` here. -/
structure BaseDataset where
  plot_id : String
  label : CVal
  uid : String
  dconfig : Conf
  layout : DsLayout
  trace_params : TraceParams
  pct_range : PctRange

/-- The `pct_axis_update` dictionary stored on a plot (always
`ticksuffix="%", hoverformat=".1f"`). -/
structure PctAxisUpdate where
  ticksuffix : String
  hoverformat : String
deriving DecidableEq

/-- `Plot` model (plot.py lines 71-88). -/
structure Plot where
  id : String
  plot_type : PlotType
  layout : Layout
  datasets : List BaseDataset
  pconfig : Conf
  add_log_tab : Bool
  add_pct_tab : Bool
  l_active : Bool
  p_active : Bool
  pct_axis_update : PctAxisUpdate
  axis_controlled_by_switches : List AxisKey
  square : Bool
  flat : Bool

/-- Process-wide configuration values the module reads (the `config`
module). -/
structure Globals where
  strict : Bool
  plots_force_flat : Bool
  plots_force_interactive : Bool
  plots_flat_numseries : ℕ
  export_plots : Bool
  development : Bool
  simple_output : Bool

/-- The figure produced by `dataset.create_figure(layout, is_log, is_pct)`:
pixel rendering is external, so the figure carries the resolved layout the
module computed (plus the view flags it was asked for). -/
structure Figure where
  layout : Layout
  is_log : Bool
  is_pct : Bool

/-- Default width for flat plots (plot.py line 582). -/
def FLAT_PLOT_WIDTH : ℚ := 1100

/-! ### Axis log-scale transformation -/

/-- The bound transformation applied under a log view (plot.py lines 589-590
and 317-318): `math.log10(v) if v is not None and v > 0 else None`. -/
def logBound (log10 : ℚ → ℚ) : Option ℚ → Option ℚ
  | some v => if 0 < v then some (log10 v) else none
  | none => none

/-- `_set_axis_log_scale` (plot.py lines 585-592).  The source mutates the
axis object in place; the embedding returns the updated axis value. -/
def _set_axis_log_scale (log10 : ℚ → ℚ) (axis : Axis) : Axis :=
  let axis := { axis with type := AxisKind.log }
  let minval := axis.autorangeoptions.minallowed
  let maxval := axis.autorangeoptions.maxallowed
  { axis with
    autorangeoptions :=
      { axis.autorangeoptions with
        minallowed := logBound log10 minval
        maxallowed := logBound log10 maxval } }

/-! ### Deprecated-key renaming -/

/-- `rename_deprecated_highcharts_keys` (plot.py lines 595-606).  Note the
source checks membership of `"yCeiling"` but pops `"y_ceiling"`. -/
def rename_deprecated_highcharts_keys (conf : Conf) : Except String Conf := do
  let conf1 ←
    if (Conf.get? conf "yCeiling").isSome then do
      let r ← Conf.pop conf "y_ceiling"
      pure (Conf.setKey r.2 "yaxis" r.1)
    else pure conf
  let conf2 ←
    if (Conf.get? conf1 "xAxis").isSome then do
      let r ← Conf.pop conf1 "xAxis"
      pure (Conf.setKey r.2 "xaxis" r.1)
    else pure conf1
  let conf3 ←
    if (Conf.get? conf2 "tooltip").isSome then do
      let r ← Conf.pop conf2 "tooltip"
      pure (Conf.setKey r.2 "hovertemplate" r.1)
    else pure conf2
  pure conf3

/-! ### Suffix handling and dataset layout -/

/-- The fixed known-suffix table (plot.py line 635). -/
def KNOWN_SUFFIXES : List String := ["%", "x", "X", "k", "M", " bp", " kbp", " Mbp"]

/-- The "set or remove space in known suffixes" loop (plot.py lines 636-640),
applied to one suffix value: a value equal to `suf.strip()` for some table
entry is replaced by that entry. -/
def set_known_suffix_spacing (sfx : Option String) : Option String :=
  KNOWN_SUFFIXES.foldl
    (fun acc suf =>
      match acc with
      | some s => if s = pyStrip suf then some suf else some s
      | none => none)
    sfx

/-- The "% suffix from label" inference (plot.py lines 645-656), for a truthy
label when the suffix is still unset. -/
def infer_suffix_from_label (lab : String) : Option String :=
  let s0 : Option String :=
    if pyContains lab "%" || pyContains (pyLower lab) "percentage" then some "%" else none
  KNOWN_SUFFIXES.foldl
    (fun acc suf =>
      if pyEndsWith lab (" (" ++ pyStrip suf ++ ")") then some suf else acc)
    s0

/-- `_clean_config_tt_label` (plot.py lines 749-762): sequential replacement
over the HighCharts-to-Plotly translation table, in insertion order. -/
def _clean_config_tt_label (tt_label : String) : String :=
  let s := pyReplace tt_label "\x7bpoint.x" "%\x7bx"
  let s := pyReplace s "\x7bpoint.y" "%\x7by"
  let s := pyReplace s "x:>" "x:"
  let s := pyReplace s "y:>" "y:"
  let s := pyReplace s "\x7bpoint.category\x7d" "%\x7bx\x7d"
  let s := pyReplace s "<strong>" "<b>"
  let s := pyReplace s "</strong>" "</b>"
  let s := pyReplace s "<br/>" "<br>"
  s

/-- `info = part.split("}")[1].replace("</b>", "");
info = info.split(":")[0].split(",")[0].strip().split(" ")[0]`
(plot.py lines 668-669 / 676-677). -/
def tt_part_info (part : String) : String :=
  let info := pyReplace ((pySplit part "\x7d").getD 1 "") "</b>" ""
  let a := (pySplit info ":").getD 0 ""
  let b := (pySplit a ",").getD 0 ""
  (pySplit (pyStrip b) " ").getD 0 ""

/-- The inner `for suf in KNOWN_SUFFIXES: if info == suf.strip(): ...; break`
(plot.py lines 671-674): first table entry whose stripped form equals
`info`. -/
def suffix_from_info (info : String) : Option String :=
  KNOWN_SUFFIXES.find? (fun suf => info == pyStrip suf)

/-- The `for part in parts` suffix-parsing loop over `tt_label.split("%{")`
(plot.py lines 665-682), threading the still-unset suffixes. -/
def parse_tt_suffixes (parts : List String) (ys0 xs0 : Option String) :
    Option String × Option String :=
  parts.foldl
    (fun acc part =>
      let ys := acc.1
      let xs := acc.2
      if ys.isNone && pyStartsWith part "y" && pyContains part "\x7d" then
        let info := tt_part_info part
        if !info.data.isEmpty then
          match suffix_from_info info with
          | some suf => (some suf, xs)
          | none => (ys, xs)
        else (ys, xs)
      else if xs.isNone && pyStartsWith part "x" && pyContains part "\x7d" then
        let info := tt_part_info part
        if !info.data.isEmpty then
          match suffix_from_info info with
          | some suf => (ys, some suf)
          | none => (ys, xs)
        else (ys, xs)
      else (ys, xs))
    (ys0, xs0)

/-- Strip a suffix that already sits next to a value placeholder inside the
tooltip template (plot.py lines 685-694), for one placeholder
(`"{y}"` or `"{x}"`). -/
def strip_suffix_from_tt (placeholder : String) (tt : String) :
    Option String → String
  | none => tt
  | some sfx =>
    let tt :=
      if pyContains tt (placeholder ++ sfx) then
        pyReplace tt (placeholder ++ sfx) placeholder
      else tt
    if pyContains tt (placeholder ++ " " ++ sfx) then
      pyReplace tt (placeholder ++ " " ++ sfx) placeholder
    else tt

/-- Python `v == 0` for an optional dynamic value (`False == 0` holds in
Python); used for the `rangemode` checks. -/
def pyEqZero : Option CVal → Bool
  | some (.vnum q) => decide (q = 0)
  | some (.vbool false) => true
  | _ => false

/-- `_dataset_layout` (plot.py lines 609-746): merge dataset config over plot
config, infer the axis tick suffixes, clean the hover template, resolve the
decimal formats and build the per-dataset layout and trace params. -/
def _dataset_layout (pconfig0 dconfig : Conf) (default_tt_label : Option String) :
    DsLayout × TraceParams :=
  let pconfig : Conf := Conf.update pconfig0 dconfig
  -- ysuffix = pconfig.get("ysuffix", pconfig.get("tt_suffix")); xsuffix = pconfig.get("xsuffix")
  let ysuffix : Option String := (pconfig.rawget2 "ysuffix" "tt_suffix").bind CVal.str?
  let xsuffix : Option String := (pconfig.get? "xsuffix").bind CVal.str?
  -- options deprecated in 1.21: ylab_format / xlab_format
  let ylabformat : Option String := (pconfig.rawget2 "ylab_format" "yLabFormat").bind CVal.str?
  let ysuffix : Option String :=
    match ysuffix, ylabformat with
    | none, some fmt =>
      if !fmt.data.isEmpty && pyContains fmt "\x7d" then some ((pySplit fmt "\x7d").getD 1 "")
      else none
    | s, _ => s
  let xlabformat : Option String := (pconfig.rawget2 "xlab_format" "xLabFormat").bind CVal.str?
  let xsuffix : Option String :=
    match xsuffix, xlabformat with
    | none, some fmt =>
      if !fmt.data.isEmpty && pyContains fmt "\x7d" then some ((pySplit fmt "\x7d").getD 1 "")
      else none
    | s, _ => s
  -- set or remove space in known suffixes
  let ysuffix := set_known_suffix_spacing ysuffix
  let xsuffix := set_known_suffix_spacing xsuffix
  -- set % suffix from ylab / xlab
  let ylab : Option String := pconfig.getStr? "ylab"
  let xlab : Option String := pconfig.getStr? "xlab"
  let ysuffix :=
    match ysuffix, ylab with
    | none, some lab => if !lab.data.isEmpty then infer_suffix_from_label lab else none
    | s, _ => s
  let xsuffix :=
    match xsuffix, xlab with
    | none, some lab => if !lab.data.isEmpty then infer_suffix_from_label lab else none
    | s, _ => s
  -- hover tooltip label
  let (tt_label?, ysuffix, xsuffix) :=
    if (pconfig.get? "tt_label").isSome then
      match pconfig.getStr? "tt_label" with
      | some raw =>
        let tt0 := _clean_config_tt_label raw
        let (ysuffix, xsuffix) :=
          if ysuffix.isNone || xsuffix.isNone then
            parse_tt_suffixes (pySplit tt0 "%\x7b") ysuffix xsuffix
          else (ysuffix, xsuffix)
        let tt1 := strip_suffix_from_tt "\x7by\x7d" tt0 ysuffix
        let tt2 := strip_suffix_from_tt "\x7bx\x7d" tt1 xsuffix
        let tt3 := if pyStartsWith tt2 "<br>" then tt2 else "<br>" ++ tt2
        (some tt3, ysuffix, xsuffix)
      | none => (none, ysuffix, xsuffix)
    else (default_tt_label, ysuffix, xsuffix)
  let hovertemplate : Option String :=
    match tt_label? with
    | some t =>
      if !t.data.isEmpty then some ("<b>%\x7btext\x7d</b>" ++ t ++ "<extra></extra>")
      else none
    | none => none
  -- decimal-precision hints
  let y_decimals : Option ℤ :=
    (pconfig.rawget3 "tt_decimals" "y_decimals" "decimalPlaces").bind CVal.int?
  let y_hoverformat : Option String := y_decimals.map (fun d => ",." ++ pyStrInt d ++ "f")
  let x_decimals : Option ℤ := (pconfig.get? "x_decimals").bind CVal.int?
  let x_hoverformat : Option String := x_decimals.map (fun d => ",." ++ pyStrInt d ++ "f")
  let layout : DsLayout :=
    { title := pconfig.getStr? "title"
      xaxis :=
        { hoverformat := x_hoverformat
          ticksuffix := (xsuffix.getD "")
          title := pconfig.getStr? "xlab"
          rangemode := if pyEqZero (pconfig.get? "xmin") then "tozero" else "normal"
          autorangeoptions :=
            { clipmin := (pconfig.rawget2 "x_clipmin" "xFloor").bind CVal.num?
              clipmax := (pconfig.rawget2 "x_clipmax" "xCeiling").bind CVal.num?
              minallowed := pconfig.getNum? "xmin"
              maxallowed := pconfig.getNum? "xmax" } }
      yaxis :=
        { hoverformat := y_hoverformat
          ticksuffix := (ysuffix.getD "")
          title := pconfig.getStr? "ylab"
          -- source line 732 reads `pconfig.get("ymin") == 0 == 0`, a chained
          -- comparison equivalent to `pconfig.get("ymin") == 0`
          rangemode := if pyEqZero (pconfig.get? "ymin") then "tozero" else "normal"
          autorangeoptions :=
            { clipmin := (pconfig.rawget2 "y_clipmin" "yFloor").bind CVal.num?
              clipmax := (pconfig.rawget2 "y_clipmax" "yCeiling").bind CVal.num?
              minallowed := pconfig.getNum? "ymin"
              maxallowed := pconfig.getNum? "ymax" } } }
  (layout, { hovertemplate := hovertemplate })

/-! ### Plot construction (`Plot.initialize`) -/

/-- Python `a or b` over optional strings (`None` and `""` are falsy). -/
def pyOrStr : Option String → Option String → Option String
  | some s, b => if s.data.isEmpty then b else some s
  | none, b => b

/-- `id = id or pconfig.get("id"); if id is None: id = f"mqc_plot_{uniq_suffix}"`
(plot.py lines 128-131).  The random suffix is an external entropy source,
passed in as `rand_id`. -/
def resolve_plot_id (pconfig : Conf) (id? : Option String) (rand_id : String) : String :=
  match pyOrStr id? (pconfig.getStr? "id") with
  | some s => s
  | none => "mqc_plot_" ++ rand_id

/-- `add_log_tab` (plot.py line 134). -/
def add_log_tab_of (pconfig : Conf) (plot_type : PlotType) : Bool :=
  (Conf.getD pconfig "logswitch" (CVal.vbool false)).truthy &&
    (decide (plot_type = PlotType.bar) || decide (plot_type = PlotType.line))

/-- `add_pct_tab` (plot.py line 135): `pconfig.get("cpswitch", True) is not False`. -/
def add_pct_tab_of (pconfig : Conf) (plot_type : PlotType) : Bool :=
  !(Conf.getD pconfig "cpswitch" (CVal.vbool true)).isFalseLit &&
    decide (plot_type = PlotType.bar)

/-- `l_active` (plot.py line 136): `add_log_tab and pconfig.get("logswitch_active") is True`. -/
def l_active_of (pconfig : Conf) (plot_type : PlotType) : Bool :=
  add_log_tab_of pconfig plot_type &&
    (match pconfig.get? "logswitch_active" with
     | some v => v.isTrueLit
     | none => false)

/-- `p_active` (plot.py line 137):
`add_pct_tab and pconfig.get("cpswitch_c_active", True) is not True`. -/
def p_active_of (pconfig : Conf) (plot_type : PlotType) : Bool :=
  add_pct_tab_of pconfig plot_type &&
    !(Conf.getD pconfig "cpswitch_c_active" (CVal.vbool true)).isTrueLit

/-- `dconfigs = pconfig.get("data_labels") or []` (plot.py line 228); a truthy
non-list value here would make the per-index reads below fail in the source
and is modelled as the empty list. -/
def data_labels_of (pconfig : Conf) : List CVal :=
  match pconfig.get? "data_labels" with
  | some v => if v.truthy then (match v with | CVal.vlist xs => xs | _ => []) else []
  | none => []

/-- The body of the per-dataset loop of `Plot.initialize` (plot.py lines
230-260) for index `idx`: build the dataset model and the warnings it logs. -/
def build_dataset (pconfig : Conf) (dconfigs : List CVal)
    (default_tt_label : Option String) (id : String) (n_datasets idx : ℕ) :
    BaseDataset × List String :=
  let uid : String := if n_datasets > 1 then id ++ "_" ++ pyStr (idx + 1) else id
  let dconfig0 : CVal :=
    match dconfigs[idx]? with
    | some v => v
    | none => CVal.vdict []
  let warns : List String :=
    if !dconfig0.isStrOrDict then
      ["Invalid data_labels type: " ++ dconfig0.pyTypeName ++ ". Must be a string or a dict."]
    else []
  let dconfig : Conf :=
    match dconfig0 with
    | CVal.vdict d => d
    | other => [("name", other)]
  let label : CVal :=
    match List.lookup "name" dconfig with
    | some v => v
    | none =>
      match List.lookup "label" dconfig with
      | some v => v
      | none => CVal.vstr (pyStr (idx + 1))
  let dconfig : Conf :=
    if (List.lookup "ylab" dconfig).isNone && (List.lookup "ylab" pconfig).isNone then
      Conf.setKey dconfig "ylab"
        (match List.lookup "name" dconfig with
         | some v => v
         | none => (List.lookup "label" dconfig).getD CVal.vnone)
    else dconfig
  let lt := _dataset_layout pconfig dconfig default_tt_label
  ({ plot_id := id
     label := label
     uid := uid
     dconfig := dconfig
     layout := lt.1
     trace_params := lt.2
     pct_range :=
       { xaxis := some { min := some 0, max := some 100 }
         yaxis := some { min := some 0, max := some 100 } } }, warns)

/-- The non-failing tail of `Plot.initialize` (everything after the
`n_datasets == 0` check, plot.py lines 128-276), returning the plot model and
the log messages emitted. -/
def Plot.initialise_core (g : Globals) (log10 : ℚ → ℚ) (rand_id : String)
    (plot_type : PlotType) (pconfig : Conf) (n_datasets : ℕ)
    (id? : Option String) (axis_switches? : Option (List AxisKey))
    (default_tt_label : Option String) : Plot × List String :=
  let id := resolve_plot_id pconfig id? rand_id
  let add_log_tab := add_log_tab_of pconfig plot_type
  let add_pct_tab := add_pct_tab_of pconfig plot_type
  let l_active := l_active_of pconfig plot_type
  let p_active := p_active_of pconfig plot_type
  let height : ℚ := (pconfig.getNum? "height").getD 500
  let width : Option ℚ := pconfig.getNum? "width"
  let width := if (Conf.getD pconfig "square" CVal.vnone).truthy then some height else width
  let title : Option String := (pconfig.rawget2 "table_title" "title").bind CVal.str?
  let lint_logs : List String :=
    if (title.getD "").data.isEmpty && g.strict then
      ["LINT: title is missing from plot config for plot " ++ id]
    else []
  let flat := g.plots_force_flat ||
    (!g.plots_force_interactive && decide (n_datasets > g.plots_flat_numseries))
  let defaultAxis : Axis :=
    { type := AxisKind.linear
      ticksuffix := ""
      hoverformat := none
      title := none
      rangemode := "normal"
      autorangeoptions := { clipmin := none, clipmax := none, minallowed := none, maxallowed := none } }
  let layout : Layout :=
    { title := title
      xaxis := defaultAxis
      yaxis := defaultAxis
      height := some height
      width := width
      showlegend := flat }
  let pct_axis_update : PctAxisUpdate := { ticksuffix := "%", hoverformat := ".1f" }
  let controlled : List AxisKey := axis_switches?.getD []
  let step1 :=
    if ((pconfig.rawget2 "xlog" "xLog").getD CVal.vnone).truthy then
      ({ layout with xaxis := _set_axis_log_scale log10 layout.xaxis },
        controlled.erase AxisKey.xaxis)
    else (layout, controlled)
  let layout := step1.1
  let controlled := step1.2
  let step2 :=
    if ((pconfig.rawget2 "ylog" "yLog").getD CVal.vnone).truthy then
      ({ layout with yaxis := _set_axis_log_scale log10 layout.yaxis },
        controlled.erase AxisKey.yaxis)
    else (layout, controlled)
  let layout := step2.1
  let controlled := step2.2
  let layout :=
    if add_log_tab && l_active then
      controlled.foldl
        (fun ly a => ly.setAxis a { ly.getAxis a with type := AxisKind.log }) layout
    else layout
  let dconfigs := data_labels_of pconfig
  let ds_results :=
    (List.range n_datasets).map (build_dataset pconfig dconfigs default_tt_label id n_datasets)
  ({ id := id
     plot_type := plot_type
     layout := layout
     datasets := ds_results.map Prod.fst
     pconfig := pconfig
     add_log_tab := add_log_tab
     add_pct_tab := add_pct_tab
     l_active := l_active
     p_active := p_active
     pct_axis_update := pct_axis_update
     axis_controlled_by_switches := controlled
     square := (Conf.getD pconfig "square" CVal.vnone).truthy
     flat := flat }, lint_logs ++ (ds_results.map Prod.snd).flatten)

/-- `Plot.initialize` (plot.py lines 106-276); spelled `initialise` here.
Raising `ValueError("No datasets to plot")` on a zero dataset count is
modelled as `Except.error`. -/
def Plot.initialise (g : Globals) (log10 : ℚ → ℚ) (rand_id : String)
    (plot_type : PlotType) (pconfig : Conf) (n_datasets : ℕ)
    (id? : Option String) (axis_switches? : Option (List AxisKey))
    (default_tt_label : Option String) : Except String (Plot × List String) :=
  if n_datasets = 0 then Except.error "ValueError: No datasets to plot"
  else
    Except.ok (Plot.initialise_core g log10 rand_id plot_type pconfig n_datasets
      id? axis_switches? default_tt_label)

/-! ### Figure resolution (`Plot.get_figure`) -/

/-- Merging one per-axis layout override over a base axis
(`layout.update(**dataset.layout)` assigns every key the override dict
holds, including explicit `None`s). -/
def applyDsAxis (a : Axis) (d : DsAxis) : Axis :=
  { a with
    hoverformat := d.hoverformat
    ticksuffix := d.ticksuffix
    title := d.title
    rangemode := d.rangemode
    autorangeoptions := d.autorangeoptions }

/-- `layout.update(**dataset.layout)` (plot.py line 304). -/
def applyDsLayout (l : Layout) (d : DsLayout) : Layout :=
  { l with
    title := d.title
    xaxis := applyDsAxis l.xaxis d.xaxis
    yaxis := applyDsAxis l.yaxis d.yaxis }

/-- One iteration of the `for axis in self.axis_controlled_by_switches` loop
of `Plot.get_figure` (plot.py lines 307-320), acting on the local layout
copy. -/
def resolve_switch_axis (log10 : ℚ → ℚ) (p : Plot) (dataset : BaseDataset)
    (is_log is_pct : Bool) (ly : Layout) (a : AxisKey) : Layout :=
  let ax := { ly.getAxis a with type := AxisKind.linear }
  let minval := ax.autorangeoptions.minallowed
  let maxval := ax.autorangeoptions.maxallowed
  let step1 :=
    if is_pct then
      ({ ax with
          ticksuffix := p.pct_axis_update.ticksuffix
          hoverformat := some p.pct_axis_update.hoverformat },
        some (dataset.pct_range.minOf a), some (dataset.pct_range.maxOf a))
    else (ax, minval, maxval)
  let step2 :=
    if is_log then
      ({ step1.1 with type := AxisKind.log },
        logBound log10 step1.2.1, logBound log10 step1.2.2)
    else step1
  ly.setAxis a
    { step2.1 with
      autorangeoptions :=
        { step2.1.autorangeoptions with
          minallowed := step2.2.1
          maxallowed := step2.2.2 } }

/-- `Plot.get_figure` (plot.py lines 298-321) applied to a given dataset
object (the loop in `flat_plot` passes `ds_idx` and the source indexes
`self.datasets[dataset_id]`; here the dataset value itself is passed).  The
source copies the stored layout (`go.Layout(self.layout.to_plotly_json())`)
and mutates only the copy; accordingly the post-call states of the plot and
dataset are returned alongside the figure, and are the unchanged inputs. -/
def Plot.get_figure_ds (log10 : ℚ → ℚ) (p : Plot) (dataset : BaseDataset)
    (is_log is_pct flat : Bool) : Plot × BaseDataset × Figure :=
  let layout := applyDsLayout p.layout dataset.layout
  let layout := if flat then { layout with width := some FLAT_PLOT_WIDTH } else layout
  let layout :=
    p.axis_controlled_by_switches.foldl
      (resolve_switch_axis log10 p dataset is_log is_pct) layout
  (p, dataset, { layout := layout, is_log := is_log, is_pct := is_pct })

/-- `Plot.get_figure` by dataset index; an out-of-range index raises
`IndexError` in the source. -/
def Plot.get_figure (log10 : ℚ → ℚ) (p : Plot) (dataset_id : ℕ)
    (is_log is_pct flat : Bool) : Except String (Plot × BaseDataset × Figure) :=
  match p.datasets[dataset_id]? with
  | some d => Except.ok (Plot.get_figure_ds log10 p d is_log is_pct flat)
  | none => Except.error "IndexError: list index out of range"

/-! ### Static rendering -/

/-- Truthiness of an optional number (`assert fig.layout.width`). -/
def truthyOptNum : Option ℚ → Bool
  | some q => decide (q ≠ 0)
  | none => false

/-- The data of one static-image call: the name it is addressed by, whether
it is the initially visible image, and the dimensions passed to the external
renderer. -/
structure StaticImageCall where
  file_name : Option String
  active : Bool
  width : Option ℚ
  height : Option ℚ
deriving DecidableEq

/-- `fig_to_static_html` (plot.py lines 480-542).  The external effects
(image bytes, watermarking, file writing, base64) are not part of the core;
the embedding keeps the full failure structure: the width assertion, then
the `export_plots` file-name check, then the non-embedded file-name check,
in source order. -/
def fig_to_static_html (fig : Figure) (active export_plots embed : Bool)
    (file_name : Option String) : Except String StaticImageCall :=
  if !truthyOptNum fig.layout.width then
    Except.error "AssertionError: fig.layout.width"
  else if export_plots && file_name.isNone then
    Except.error "ValueError: file_name is required for export_plots"
  else if !embed && file_name.isNone then
    Except.error "ValueError: file_name is required for non-embedded plots"
  else
    Except.ok
      { file_name := file_name
        active := active
        width := fig.layout.width
        height := fig.layout.height }

/-- The static-image calls made for one dataset by the body of the
`for ds_idx, dataset in enumerate(self.datasets)` loop of `Plot.flat_plot`
(plot.py lines 391-414).  `export_plots` / `embed` take their source
defaults `config.export_plots` / `not config.development`. -/
def Plot.flat_plot_ds (log10 : ℚ → ℚ) (g : Globals) (p : Plot) (ds_idx : ℕ)
    (dataset : BaseDataset) : Except String (List StaticImageCall) := do
  let embed := !g.development
  let img1 ← fig_to_static_html (Plot.get_figure_ds log10 p dataset false false true).2.2
    (decide (ds_idx = 0) && !p.p_active && !p.l_active) g.export_plots embed
    (some (if !p.add_log_tab && !p.add_pct_tab then dataset.uid else dataset.uid ++ "-cnt"))
  let imgs2 ←
    if p.add_pct_tab then do
      let i ← fig_to_static_html (Plot.get_figure_ds log10 p dataset false true true).2.2
        (decide (ds_idx = 0) && p.p_active) g.export_plots embed
        (some (dataset.uid ++ "-pct"))
      pure [i]
    else pure []
  let imgs3 ←
    if p.add_log_tab then do
      let i ← fig_to_static_html (Plot.get_figure_ds log10 p dataset true false true).2.2
        (decide (ds_idx = 0) && p.l_active) g.export_plots embed
        (some (dataset.uid ++ "-log"))
      pure [i]
    else pure []
  let imgs4 ←
    if p.add_pct_tab && p.add_log_tab then do
      let i ← fig_to_static_html (Plot.get_figure_ds log10 p dataset true true true).2.2
        (decide (ds_idx = 0) && p.p_active && p.l_active) g.export_plots embed
        (some (dataset.uid ++ "-pct-log"))
      pure [i]
    else pure []
  pure ([img1] ++ imgs2 ++ imgs3 ++ imgs4)

/-- The `enumerate(self.datasets)` loop of `Plot.flat_plot`. -/
def Plot.flat_plot_aux (log10 : ℚ → ℚ) (g : Globals) (p : Plot) :
    ℕ → List BaseDataset → Except String (List StaticImageCall)
  | _, [] => Except.ok []
  | idx, d :: rest => do
    let first ← Plot.flat_plot_ds log10 g p idx d
    let more ← Plot.flat_plot_aux log10 g p (idx + 1) rest
    pure (first ++ more)

/-- `Plot.flat_plot` (plot.py lines 374-417), abstracted to the ordered
sequence of static-image calls it performs (the surrounding HTML next to the
images carries no image data). -/
def Plot.flat_plot (log10 : ℚ → ℚ) (g : Globals) (p : Plot) :
    Except String (List StaticImageCall) :=
  Plot.flat_plot_aux log10 g p 0 p.datasets

/-! ### Specification-side rendering contract

The static-output contract stated in the specification, written from the
specification's words (amended only where the code demonstrably differs:
when any toggle is present the raw view is addressed as `{uid}-cnt`, not as
the bare `{uid}`), to be compared with the embedded `Plot.flat_plot`. -/

/-- The static images the specification promises for one dataset: one image
per reachable (percent x log) combination, named `{uid}-pct`, `{uid}-log`,
`{uid}-pct-log` for the toggled views and - per the amendment - `{uid}` for
the raw view only when the chart has no toggles, `{uid}-cnt` otherwise; the
initially visible image is the one matching the default-active toggle state
on dataset 0. -/
def spec_dataset_images (p : Plot) (ds_idx : ℕ) (d : BaseDataset) :
    List StaticImageCall :=
  [{ file_name := some (if !p.add_log_tab && !p.add_pct_tab then d.uid else d.uid ++ "-cnt")
     active := decide (ds_idx = 0) && !p.p_active && !p.l_active
     width := some FLAT_PLOT_WIDTH
     height := p.layout.height }] ++
  (if p.add_pct_tab then
    [{ file_name := some (d.uid ++ "-pct")
       active := decide (ds_idx = 0) && p.p_active
       width := some FLAT_PLOT_WIDTH
       height := p.layout.height }]
   else []) ++
  (if p.add_log_tab then
    [{ file_name := some (d.uid ++ "-log")
       active := decide (ds_idx = 0) && p.l_active
       width := some FLAT_PLOT_WIDTH
       height := p.layout.height }]
   else []) ++
  (if p.add_pct_tab && p.add_log_tab then
    [{ file_name := some (d.uid ++ "-pct-log")
       active := decide (ds_idx = 0) && p.p_active && p.l_active
       width := some FLAT_PLOT_WIDTH
       height := p.layout.height }]
   else [])

/-! ### Concrete instances used by witnesses and counterexamples -/

/-- Globals with all special modes off. -/
def egGlobals : Globals :=
  { strict := false, plots_force_flat := false, plots_force_interactive := false,
    plots_flat_numseries := 1000, export_plots := false, development := false,
    simple_output := false }

/-- An arbitrary stand-in for the external `math.log10` (the embedded
properties hold for every such function). -/
def egLog10 : ℚ → ℚ := fun _ => 0

/-- A plain linear axis with open bounds. -/
def egAxis : Axis :=
  { type := .linear, ticksuffix := "", hoverformat := none, title := none,
    rangemode := "normal",
    autorangeoptions := { clipmin := none, clipmax := none, minallowed := none, maxallowed := none } }

/-- A dataset x-axis override with open bounds. -/
def egDsAxisX : DsAxis :=
  { hoverformat := none, ticksuffix := "", title := none, rangemode := "normal",
    autorangeoptions := { clipmin := none, clipmax := none, minallowed := none, maxallowed := none } }

/-- A dataset y-axis override with configured bounds 5..80. -/
def egDsAxisY : DsAxis :=
  { hoverformat := none, ticksuffix := "", title := none, rangemode := "normal",
    autorangeoptions := { clipmin := none, clipmax := none, minallowed := some 5, maxallowed := some 80 } }

/-- A concrete dataset with uid `p1` and the default percentage range. -/
def egDataset : BaseDataset :=
  { plot_id := "p1", label := CVal.vstr "1", uid := "p1", dconfig := [],
    layout := { title := none, xaxis := egDsAxisX, yaxis := egDsAxisY },
    trace_params := { hovertemplate := none },
    pct_range := { xaxis := some { min := some 0, max := some 100 },
                   yaxis := some { min := some 0, max := some 100 } } }

/-- A concrete bar plot with the percentage toggle on, the log toggle off,
and a switch-controlled y axis. -/
def egPlot : Plot :=
  { id := "p1", plot_type := .bar,
    layout := { title := none, xaxis := egAxis, yaxis := egAxis, height := some 500,
                width := none, showlegend := false },
    datasets := [egDataset], pconfig := [],
    add_log_tab := false, add_pct_tab := true, l_active := false, p_active := false,
    pct_axis_update := { ticksuffix := "%", hoverformat := ".1f" },
    axis_controlled_by_switches := [.yaxis], square := false, flat := true }

/-- A figure whose layout has no width. -/
def egFigNoWidth : Figure :=
  { layout := { title := none, xaxis := egAxis, yaxis := egAxis, height := some 500,
                width := none, showlegend := false },
    is_log := false, is_pct := false }

/-- A figure whose layout has width 700. -/
def egFigW : Figure :=
  { layout := { title := none, xaxis := egAxis, yaxis := egAxis, height := some 500,
                width := some 700, showlegend := false },
    is_log := false, is_pct := false }

/-- The result of constructing a two-dataset bar plot with explicit id
`plt` over an empty config. -/
def egInitCore2 : Plot × List String :=
  Plot.initialise_core egGlobals egLog10 "abcdefghij" PlotType.bar [] 2 (some "plt") none none

/-- The first dataset of that construction. -/
def egDs2a : BaseDataset := (build_dataset [] [] none "plt" 2 0).1

/-- The second dataset of that construction. -/
def egDs2b : BaseDataset := (build_dataset [] [] none "plt" 2 1).1

/-- The outcome of rendering `egPlot`, dataset 0, in the log+percent view. -/
def egR1 : Plot × BaseDataset × Figure :=
  Plot.get_figure_ds egLog10 egPlot egDataset true true false

/-- The outcome of then rendering the raw view from the post-render state. -/
def egR2 : Plot × BaseDataset × Figure :=
  Plot.get_figure_ds egLog10 egR1.1 egR1.2.1 false false false

/-! ### Auxiliary lemmas: decimal strings -/

theorem pyStrAux_eq_digits : ∀ (n fuel : ℕ), n ≤ fuel →
    pyStrAux fuel n = ((Nat.digits 10 n).map Nat.digitChar).reverse := by
  intro n
  induction n using Nat.strong_induction_on with
  | _ n ih =>
    intro fuel hle
    match fuel with
    | 0 =>
      have hz : n = 0 := by omega
      subst hz
      simp [pyStrAux]
    | fuel + 1 =>
      by_cases hn : n = 0
      · simp [hn, pyStrAux]
      · rw [pyStrAux]
        simp only [hn, if_false]
        rw [Nat.digits_def' (by norm_num : 1 < 10) (Nat.pos_of_ne_zero hn)]
        rw [ih (n / 10) (Nat.div_lt_self (Nat.pos_of_ne_zero hn) (by norm_num)) fuel
          (by omega)]
        simp [List.reverse_cons]

theorem digitChar_inj_below_ten :
    ∀ a < 10, ∀ b < 10, Nat.digitChar a = Nat.digitChar b → a = b := by
  decide

theorem map_digitChar_inj : ∀ (l₁ l₂ : List ℕ), (∀ x ∈ l₁, x < 10) → (∀ x ∈ l₂, x < 10) →
    l₁.map Nat.digitChar = l₂.map Nat.digitChar → l₁ = l₂ := by
  intro l₁
  induction l₁ with
  | nil => intro l₂ _ _ h; cases l₂ <;> simp_all
  | cons a t ih =>
    intro l₂ h1 h2 h
    cases l₂ with
    | nil => simp_all
    | cons b t₂ =>
      simp only [List.map_cons, List.cons.injEq] at h
      have ha := h1 a (by simp)
      have hb := h2 b (by simp)
      have := digitChar_inj_below_ten a ha b hb h.1
      have := ih t₂ (fun x hx => h1 x (by simp [hx])) (fun x hx => h2 x (by simp [hx])) h.2
      simp_all

theorem pyStr_injective : Function.Injective pyStr := by
  intro n m h
  unfold pyStr at h
  by_cases hn : n = 0 <;> by_cases hm : m = 0
  · omega
  · exfalso
    simp only [hn, if_true, hm, if_false] at h
    have hd : ("0" : String).data = pyStrAux (m + 1) m := congrArg String.data h
    rw [pyStrAux_eq_digits m (m + 1) (by omega)] at hd
    have hrev : List.map Nat.digitChar (Nat.digits 10 m) = ['0'] :=
      List.reverse_injective (hd.symm.trans (by rfl))
    have hdig : Nat.digits 10 m = [0] :=
      map_digitChar_inj _ _ (fun x hx => Nat.digits_lt_base (by norm_num) hx) (by simp)
        (hrev.trans (by rfl))
    have hod := Nat.ofDigits_digits 10 m
    rw [hdig] at hod
    simp [Nat.ofDigits] at hod
    exact hm hod.symm
  · exfalso
    simp only [hn, if_false, hm, if_true] at h
    have hd : pyStrAux (n + 1) n = ("0" : String).data := congrArg String.data h
    rw [pyStrAux_eq_digits n (n + 1) (by omega)] at hd
    have hrev : List.map Nat.digitChar (Nat.digits 10 n) = ['0'] :=
      List.reverse_injective (hd.trans (by rfl))
    have hdig : Nat.digits 10 n = [0] :=
      map_digitChar_inj _ _ (fun x hx => Nat.digits_lt_base (by norm_num) hx) (by simp)
        (hrev.trans (by rfl))
    have hod := Nat.ofDigits_digits 10 n
    rw [hdig] at hod
    simp [Nat.ofDigits] at hod
    exact hn hod.symm
  · simp only [hn, hm, if_false] at h
    have hd : pyStrAux (n + 1) n = pyStrAux (m + 1) m := congrArg String.data h
    rw [pyStrAux_eq_digits n (n + 1) (by omega), pyStrAux_eq_digits m (m + 1) (by omega)] at hd
    have hrd := List.reverse_injective hd
    have hdig := map_digitChar_inj _ _ (fun x hx => Nat.digits_lt_base (by norm_num) hx)
      (fun x hx => Nat.digits_lt_base (by norm_num) hx) hrd
    have h1 := Nat.ofDigits_digits 10 n
    have h2 := Nat.ofDigits_digits 10 m
    rw [hdig] at h1
    omega

theorem str_append_cancel_left {s t u : String} (h : s ++ t = s ++ u) : t = u := by
  have hd : s.data ++ t.data = s.data ++ u.data := by
    have h1 := congrArg String.data h
    rw [String.data_append, String.data_append] at h1
    exact h1
  exact String.ext (List.append_cancel_left hd)

theorem pyStr_tag_inj (s : String) {a b : ℕ}
    (h : s ++ "_" ++ pyStr a = s ++ "_" ++ pyStr b) : a = b :=
  pyStr_injective (str_append_cancel_left h)

/-! ### Auxiliary lemmas: figure resolution -/

@[simp] theorem Plot.get_figure_ds_fst (log10 : ℚ → ℚ) (p : Plot) (d : BaseDataset)
    (il ip fl : Bool) : (Plot.get_figure_ds log10 p d il ip fl).1 = p := rfl

@[simp] theorem Plot.get_figure_ds_snd_fst (log10 : ℚ → ℚ) (p : Plot) (d : BaseDataset)
    (il ip fl : Bool) : (Plot.get_figure_ds log10 p d il ip fl).2.1 = d := rfl

theorem Plot.get_figure_ds_layout (log10 : ℚ → ℚ) (p : Plot) (d : BaseDataset)
    (il ip fl : Bool) :
    (Plot.get_figure_ds log10 p d il ip fl).2.2.layout =
      p.axis_controlled_by_switches.foldl (resolve_switch_axis log10 p d il ip)
        (if fl then { applyDsLayout p.layout d.layout with width := some FLAT_PLOT_WIDTH }
         else applyDsLayout p.layout d.layout) := rfl

theorem resolve_switch_axis_width (log10 : ℚ → ℚ) (p : Plot) (d : BaseDataset)
    (il ip : Bool) (ly : Layout) (a : AxisKey) :
    (resolve_switch_axis log10 p d il ip ly a).width = ly.width := by
  cases a <;> rfl

theorem resolve_switch_axis_height (log10 : ℚ → ℚ) (p : Plot) (d : BaseDataset)
    (il ip : Bool) (ly : Layout) (a : AxisKey) :
    (resolve_switch_axis log10 p d il ip ly a).height = ly.height := by
  cases a <;> rfl

theorem foldl_resolve_width (log10 : ℚ → ℚ) (p : Plot) (d : BaseDataset) (il ip : Bool) :
    ∀ (l : List AxisKey) (ly : Layout),
      (l.foldl (resolve_switch_axis log10 p d il ip) ly).width = ly.width := by
  intro l
  induction l with
  | nil => intro ly; rfl
  | cons a t ih => intro ly; rw [List.foldl_cons, ih, resolve_switch_axis_width]

theorem foldl_resolve_height (log10 : ℚ → ℚ) (p : Plot) (d : BaseDataset) (il ip : Bool) :
    ∀ (l : List AxisKey) (ly : Layout),
      (l.foldl (resolve_switch_axis log10 p d il ip) ly).height = ly.height := by
  intro l
  induction l with
  | nil => intro ly; rfl
  | cons a t ih => intro ly; rw [List.foldl_cons, ih, resolve_switch_axis_height]

/-- A raw-view (`is_log = is_pct = false`) resolution step rewrites each
controlled axis bound to its own current value: the `autorangeoptions` of
every axis are unchanged. -/
theorem resolve_ff_aro (log10 : ℚ → ℚ) (p : Plot) (d : BaseDataset)
    (ly : Layout) (a b : AxisKey) :
    ((resolve_switch_axis log10 p d false false ly a).getAxis b).autorangeoptions =
      (ly.getAxis b).autorangeoptions := by
  cases a <;> cases b <;> rfl

theorem foldl_resolve_ff_aro (log10 : ℚ → ℚ) (p : Plot) (d : BaseDataset) :
    ∀ (l : List AxisKey) (ly : Layout) (b : AxisKey),
      ((l.foldl (resolve_switch_axis log10 p d false false) ly).getAxis b).autorangeoptions =
        (ly.getAxis b).autorangeoptions := by
  intro l
  induction l with
  | nil => intro ly b; rfl
  | cons a t ih => intro ly b; rw [List.foldl_cons, ih, resolve_ff_aro]

theorem get_figure_ds_flat_width (log10 : ℚ → ℚ) (p : Plot) (d : BaseDataset) (il ip : Bool) :
    (Plot.get_figure_ds log10 p d il ip true).2.2.layout.width = some FLAT_PLOT_WIDTH := by
  rw [Plot.get_figure_ds_layout, foldl_resolve_width]
  rfl

theorem get_figure_ds_flat_height (log10 : ℚ → ℚ) (p : Plot) (d : BaseDataset) (il ip : Bool) :
    (Plot.get_figure_ds log10 p d il ip true).2.2.layout.height = p.layout.height := by
  rw [Plot.get_figure_ds_layout, foldl_resolve_height]
  rfl

/-! ### Auxiliary lemmas: flat rendering -/

/-- A flat figure always carries the forced `FLAT_PLOT_WIDTH`, so a
static-image call with a file name never fails. -/
theorem fig_to_static_html_flat (log10 : ℚ → ℚ) (p : Plot) (d : BaseDataset)
    (il ip : Bool) (active ep em : Bool) (s : String) :
    fig_to_static_html (Plot.get_figure_ds log10 p d il ip true).2.2 active ep em (some s) =
    Except.ok { file_name := some s, active := active, width := some FLAT_PLOT_WIDTH,
                height := p.layout.height } := by
  have hw : truthyOptNum (some FLAT_PLOT_WIDTH) = true := by decide
  simp [fig_to_static_html, get_figure_ds_flat_width, get_figure_ds_flat_height, hw]

theorem flat_plot_ds_eq (log10 : ℚ → ℚ) (g : Globals) (p : Plot) (i : ℕ) (d : BaseDataset) :
    Plot.flat_plot_ds log10 g p i d = Except.ok (spec_dataset_images p i d) := by
  cases hp : p.add_pct_tab <;> cases hl : p.add_log_tab <;>
    simp [Plot.flat_plot_ds, spec_dataset_images, hp, hl, fig_to_static_html_flat,
      Bind.bind, Except.bind, Pure.pure, Except.pure]

theorem flat_plot_aux_eq (log10 : ℚ → ℚ) (g : Globals) (p : Plot) :
    ∀ (l : List BaseDataset) (idx : ℕ),
      Plot.flat_plot_aux log10 g p idx l =
        Except.ok (((List.enumFrom idx l).map
          (fun x => spec_dataset_images p x.1 x.2)).flatten) := by
  intro l
  induction l with
  | nil => intro idx; rfl
  | cons d t ih =>
    intro idx
    simp [Plot.flat_plot_aux, flat_plot_ds_eq, ih, List.enumFrom,
      Bind.bind, Except.bind, Pure.pure, Except.pure]

/-! ### Auxiliary lemmas: plot construction -/

theorem initialise_core_datasets (g : Globals) (log10 : ℚ → ℚ) (rid : String)
    (pt : PlotType) (cfg : Conf) (n : ℕ) (id? : Option String)
    (ax? : Option (List AxisKey)) (dtl : Option String) :
    (Plot.initialise_core g log10 rid pt cfg n id? ax? dtl).1.datasets =
      ((List.range n).map
        (build_dataset cfg (data_labels_of cfg) dtl (resolve_plot_id cfg id? rid) n)).map
        Prod.fst := rfl

theorem initialise_core_id (g : Globals) (log10 : ℚ → ℚ) (rid : String)
    (pt : PlotType) (cfg : Conf) (n : ℕ) (id? : Option String)
    (ax? : Option (List AxisKey)) (dtl : Option String) :
    (Plot.initialise_core g log10 rid pt cfg n id? ax? dtl).1.id =
      resolve_plot_id cfg id? rid := rfl

theorem initialise_core_flags (g : Globals) (log10 : ℚ → ℚ) (rid : String)
    (pt : PlotType) (cfg : Conf) (n : ℕ) (id? : Option String)
    (ax? : Option (List AxisKey)) (dtl : Option String) :
    (Plot.initialise_core g log10 rid pt cfg n id? ax? dtl).1.add_log_tab =
        add_log_tab_of cfg pt ∧
    (Plot.initialise_core g log10 rid pt cfg n id? ax? dtl).1.add_pct_tab =
        add_pct_tab_of cfg pt ∧
    (Plot.initialise_core g log10 rid pt cfg n id? ax? dtl).1.l_active =
        l_active_of cfg pt ∧
    (Plot.initialise_core g log10 rid pt cfg n id? ax? dtl).1.p_active =
        p_active_of cfg pt :=
  ⟨rfl, rfl, rfl, rfl⟩

theorem initialise_core_warns (g : Globals) (log10 : ℚ → ℚ) (rid : String)
    (pt : PlotType) (cfg : Conf) (n : ℕ) (id? : Option String)
    (ax? : Option (List AxisKey)) (dtl : Option String) :
    (Plot.initialise_core g log10 rid pt cfg n id? ax? dtl).2 =
      (if ((((cfg.rawget2 "table_title" "title").bind CVal.str?).getD "").data.isEmpty
            && g.strict) then
        ["LINT: title is missing from plot config for plot " ++ resolve_plot_id cfg id? rid]
      else []) ++
      (((List.range n).map
        (build_dataset cfg (data_labels_of cfg) dtl (resolve_plot_id cfg id? rid) n)).map
        Prod.snd).flatten := rfl

theorem build_dataset_uid (cfg : Conf) (dls : List CVal) (dtl : Option String)
    (id : String) (n idx : ℕ) :
    (build_dataset cfg dls dtl id n idx).1.uid =
      if n > 1 then id ++ "_" ++ pyStr (idx + 1) else id := rfl

theorem build_dataset_label_invalid (cfg : Conf) (dls : List CVal) (dtl : Option String)
    (id : String) (n idx : ℕ) (v : CVal)
    (hv : dls[idx]? = some v) (hbad : v.isStrOrDict = false) :
    (build_dataset cfg dls dtl id n idx).1.label = v := by
  cases v <;> simp [build_dataset, hv, CVal.isStrOrDict, List.lookup] at hbad ⊢

theorem build_dataset_warns_invalid (cfg : Conf) (dls : List CVal) (dtl : Option String)
    (id : String) (n idx : ℕ) (v : CVal)
    (hv : dls[idx]? = some v) (hbad : v.isStrOrDict = false) :
    (build_dataset cfg dls dtl id n idx).2 =
      ["Invalid data_labels type: " ++ v.pyTypeName ++ ". Must be a string or a dict."] := by
  simp [build_dataset, hv, hbad]

/-- Index bound and uid value of any dataset retrieved from a constructed
plot. -/
theorem initialise_core_uid_at (g : Globals) (log10 : ℚ → ℚ) (rid : String)
    (pt : PlotType) (cfg : Conf) (n : ℕ) (id? : Option String)
    (ax? : Option (List AxisKey)) (dtl : Option String) (k : ℕ) (dk : BaseDataset)
    (hdk : (Plot.initialise_core g log10 rid pt cfg n id? ax? dtl).1.datasets[k]? = some dk) :
    k < n ∧
    dk.uid = (if n > 1 then resolve_plot_id cfg id? rid ++ "_" ++ pyStr (k + 1)
              else resolve_plot_id cfg id? rid) := by
  rw [initialise_core_datasets] at hdk
  rcases Nat.lt_or_ge k n with hlt | hge
  · refine ⟨hlt, ?_⟩
    rw [List.getElem?_map, List.getElem?_map, List.getElem?_range hlt] at hdk
    simp only [Option.map_some'] at hdk
    rw [← Option.some.inj hdk, build_dataset_uid]
  · exfalso
    rw [List.getElem?_map, List.getElem?_map, List.getElem?_eq_none (by simpa using hge)] at hdk
    simp at hdk

/-! ### The claims -/

/-- Claim C2: resolving a controlled axis with isLog=true maps an unset or
non-positive bound to an unset bound and a strictly positive bound to its
base-10 logarithm; this holds for the static `_set_axis_log_scale` transform
and for the per-render log resolution step of `get_figure` alike, for every
axis and every bound. -/
theorem claim_C2 (log10 : ℚ → ℚ) (v : ℚ) (axis : Axis) (p : Plot) (d : BaseDataset)
    (is_pct : Bool) (ly : Layout) (a : AxisKey) :
    logBound log10 none = none ∧
    (v ≤ 0 → logBound log10 (some v) = none) ∧
    (0 < v → logBound log10 (some v) = some (log10 v)) ∧
    (_set_axis_log_scale log10 axis).type = AxisKind.log ∧
    (_set_axis_log_scale log10 axis).autorangeoptions.minallowed =
      logBound log10 axis.autorangeoptions.minallowed ∧
    (_set_axis_log_scale log10 axis).autorangeoptions.maxallowed =
      logBound log10 axis.autorangeoptions.maxallowed ∧
    ((resolve_switch_axis log10 p d true is_pct ly a).getAxis a).type = AxisKind.log ∧
    ((resolve_switch_axis log10 p d true is_pct ly a).getAxis a).autorangeoptions.minallowed =
      logBound log10 (if is_pct then some (d.pct_range.minOf a)
                      else (ly.getAxis a).autorangeoptions.minallowed) ∧
    ((resolve_switch_axis log10 p d true is_pct ly a).getAxis a).autorangeoptions.maxallowed =
      logBound log10 (if is_pct then some (d.pct_range.maxOf a)
                      else (ly.getAxis a).autorangeoptions.maxallowed) := by
  refine ⟨rfl, ?_, ?_, rfl, rfl, rfl, ?_, ?_, ?_⟩
  · intro h
    simp [logBound, not_lt.mpr h]
  · intro h
    simp [logBound, h]
  · cases is_pct <;> cases a <;> rfl
  · cases is_pct <;> cases a <;> rfl
  · cases is_pct <;> cases a <;> rfl

/-- Witness for C2 at concrete bounds: -1 maps to an open bound, 2 maps to
its logarithm, and the static transform flips the axis type. -/
theorem claim_C2_witness :
    logBound egLog10 (some (-1)) = none ∧
    logBound egLog10 (some 2) = some (egLog10 2) ∧
    (_set_axis_log_scale egLog10 egAxis).type = AxisKind.log :=
  ⟨(claim_C2 egLog10 (-1) egAxis egPlot egDataset false egPlot.layout AxisKey.yaxis).2.1
      (by norm_num),
   (claim_C2 egLog10 2 egAxis egPlot egDataset false egPlot.layout AxisKey.yaxis).2.2.1
      (by norm_num),
   (claim_C2 egLog10 2 egAxis egPlot egDataset false egPlot.layout AxisKey.yaxis).2.2.2.1⟩

/-- Claim C3: the deprecated-key renaming is claimed never to raise, but the
source checks membership of the spelling `yCeiling` and then pops the
different spelling `y_ceiling`, so a config containing `yCeiling` alone makes
`conf.pop("y_ceiling")` raise `KeyError`; configs without that key (unknown
keys, the other two deprecated keys) flow through as the claim describes. -/
theorem claim_C3 :
    rename_deprecated_highcharts_keys [("yCeiling", CVal.vnum 5)] =
      Except.error "KeyError: y_ceiling" ∧
    rename_deprecated_highcharts_keys [("foo", CVal.vnum 1)] =
      Except.ok [("foo", CVal.vnum 1)] ∧
    rename_deprecated_highcharts_keys [("xAxis", CVal.vnum 1), ("tooltip", CVal.vstr "t")] =
      Except.ok [("xaxis", CVal.vnum 1), ("hovertemplate", CVal.vstr "t")] :=
  ⟨rfl, rfl, rfl⟩

/-- Claim C7: a zero dataset count fails construction with the invalid-input
error, and every positive dataset count takes the non-failing branch. -/
theorem claim_C7 (g : Globals) (log10 : ℚ → ℚ) (rid : String) (pt : PlotType) (cfg : Conf)
    (id? : Option String) (ax? : Option (List AxisKey)) (dtl : Option String) (n : ℕ) :
    Plot.initialise g log10 rid pt cfg 0 id? ax? dtl =
      Except.error "ValueError: No datasets to plot" ∧
    (1 ≤ n → Plot.initialise g log10 rid pt cfg n id? ax? dtl =
      Except.ok (Plot.initialise_core g log10 rid pt cfg n id? ax? dtl)) := by
  constructor
  · rfl
  · intro h
    rw [Plot.initialise, if_neg (by omega)]

/-- Witness for C7: datasetCount 0 errors, datasetCount 1 constructs. -/
theorem claim_C7_witness :
    Plot.initialise egGlobals egLog10 "abcdefghij" PlotType.bar [] 0 none none none =
      Except.error "ValueError: No datasets to plot" ∧
    Plot.initialise egGlobals egLog10 "abcdefghij" PlotType.bar [] 1 none none none =
      Except.ok (Plot.initialise_core egGlobals egLog10 "abcdefghij" PlotType.bar []
        1 none none none) :=
  ⟨(claim_C7 egGlobals egLog10 "abcdefghij" PlotType.bar [] none none none 1).1,
   (claim_C7 egGlobals egLog10 "abcdefghij" PlotType.bar [] none none none 1).2
      (by norm_num)⟩

/-- Counterexample to claim C9 as stated: a space-padded suffix value
`" %"` is NOT canonicalized to `"%"` - the loop only replaces a value that is
exactly equal to the stripped form of a table entry, and `" %"` is not the
stripped form of any entry, so it passes through unchanged into the tick
suffix. -/
theorem claim_C9_counterexample :
    (_dataset_layout [("ysuffix", CVal.vstr " %")] [] none).1.yaxis.ticksuffix = " %" ∧
    (" %" : String) ≠ "%" :=
  ⟨rfl, by decide⟩

/-- Claim C9 (amended): suffix canonicalization maps a value exactly equal to
the stripped form of a known-suffix token to that token (so a bare `%` stays
`%` and a bare `bp` gains its canonical leading space, ` bp`), while a value
with other whitespace padding, such as `" %"`, is left unchanged. -/
theorem claim_C9 :
    (∀ suf ∈ KNOWN_SUFFIXES, set_known_suffix_spacing (some (pyStrip suf)) = some suf) ∧
    (_dataset_layout [("ysuffix", CVal.vstr "%")] [] none).1.yaxis.ticksuffix = "%" ∧
    (_dataset_layout [("ysuffix", CVal.vstr "bp")] [] none).1.yaxis.ticksuffix = " bp" ∧
    (_dataset_layout [("ysuffix", CVal.vstr " %")] [] none).1.yaxis.ticksuffix = " %" := by
  refine ⟨?_, rfl, rfl, rfl⟩
  intro suf h
  fin_cases h <;> rfl

/-- Witness for C9 at the token ` bp`: its stripped form `bp` canonicalizes
back to ` bp`. -/
theorem claim_C9_witness :
    set_known_suffix_spacing (some (pyStrip " bp")) = some " bp" :=
  claim_C9.1 " bp" (by simp [KNOWN_SUFFIXES])

/-- Claim C10: a static-image call fails on a widthless figure with the
width assertion; with a truthy width it fails on a missing file name when
export is requested or output is non-embedded; with a truthy width and a
file name it succeeds. -/
theorem claim_C10 (fig : Figure) (active ep em : Bool) (fn : Option String) (w : ℚ)
    (s : String) :
    (fig.layout.width = none →
      fig_to_static_html fig active ep em fn =
        Except.error "AssertionError: fig.layout.width") ∧
    (fig.layout.width = some w → w ≠ 0 →
      fig_to_static_html fig active true em none =
        Except.error "ValueError: file_name is required for export_plots") ∧
    (fig.layout.width = some w → w ≠ 0 →
      fig_to_static_html fig active false false none =
        Except.error "ValueError: file_name is required for non-embedded plots") ∧
    (fig.layout.width = some w → w ≠ 0 →
      fig_to_static_html fig active ep em (some s) =
        Except.ok { file_name := some s, active := active, width := fig.layout.width,
                    height := fig.layout.height }) := by
  refine ⟨?_, ?_, ?_, ?_⟩
  · intro h
    simp [fig_to_static_html, h, truthyOptNum]
  · intro h hw
    simp [fig_to_static_html, h, truthyOptNum, hw]
  · intro h hw
    simp [fig_to_static_html, h, truthyOptNum, hw]
  · intro h hw
    simp [fig_to_static_html, h, truthyOptNum, hw]

/-- Witness for C10 on concrete figures without and with a width. -/
theorem claim_C10_witness :
    fig_to_static_html egFigNoWidth true false true none =
      Except.error "AssertionError: fig.layout.width" ∧
    fig_to_static_html egFigW true true true none =
      Except.error "ValueError: file_name is required for export_plots" ∧
    fig_to_static_html egFigW true false false none =
      Except.error "ValueError: file_name is required for non-embedded plots" ∧
    fig_to_static_html egFigW true false true (some "nm") =
      Except.ok { file_name := some "nm", active := true, width := egFigW.layout.width,
                  height := egFigW.layout.height } :=
  ⟨(claim_C10 egFigNoWidth true false true none 700 "nm").1 rfl,
   (claim_C10 egFigW true false true none 700 "nm").2.1 rfl (by norm_num),
   (claim_C10 egFigW true false false none 700 "nm").2.2.1 rfl (by norm_num),
   (claim_C10 egFigW true false true none 700 "nm").2.2.2 rfl (by norm_num)⟩

/-- Counterexample to claim C5 as stated: for a bar chart over an empty
config the percentage toggle is enabled (`add_pct_tab = true`) and no
configuration flag is present, yet the percentage view is NOT active by
default (`p_active = false`) - the source requires `cpswitch_c_active` to be
set to something other than `True` before the percentage view starts
active. -/
theorem claim_C5_counterexample :
    Except.map (fun x => (x.1.add_pct_tab, x.1.p_active))
      (Plot.initialise egGlobals egLog10 "abcdefghij" PlotType.bar [] 1 none none none) =
      Except.ok (true, false) ∧
    Conf.get? [] "cpswitch_c_active" = none ∧
    Conf.get? [] "cpswitch" = none :=
  ⟨rfl, rfl, rfl⟩

/-- Claim C5 (amended): the constructed plot carries exactly the toggle
flags computed by the flag formulas; the percentage view's default-active
state is FALSE unless the counts-active flag is present and set to a value
other than `True`; the log toggle exists only for bar/line kinds and only
when a truthy `logswitch` is present. -/
theorem claim_C5 (g : Globals) (log10 : ℚ → ℚ) (rid : String) (cfg : Conf) (pt : PlotType)
    (n : ℕ) (id? : Option String) (ax? : Option (List AxisKey)) (dtl : Option String)
    (p : Plot) (ws : List String)
    (h : Plot.initialise g log10 rid pt cfg n id? ax? dtl = Except.ok (p, ws)) :
    (p.add_pct_tab = add_pct_tab_of cfg pt ∧ p.p_active = p_active_of cfg pt ∧
     p.add_log_tab = add_log_tab_of cfg pt ∧ p.l_active = l_active_of cfg pt) ∧
    ((Conf.get? cfg "cpswitch_c_active").isNone → p_active_of cfg pt = false) ∧
    (p_active_of cfg pt = true →
      add_pct_tab_of cfg pt = true ∧
      ∃ v, Conf.get? cfg "cpswitch_c_active" = some v ∧ v.isTrueLit = false) ∧
    (add_log_tab_of cfg pt = true →
      (pt = PlotType.bar ∨ pt = PlotType.line) ∧
      ∃ v, Conf.get? cfg "logswitch" = some v ∧ v.truthy = true) ∧
    ((Conf.get? cfg "logswitch").isNone → add_log_tab_of cfg pt = false) := by
  have hflags :
      p.add_pct_tab = add_pct_tab_of cfg pt ∧ p.p_active = p_active_of cfg pt ∧
      p.add_log_tab = add_log_tab_of cfg pt ∧ p.l_active = l_active_of cfg pt := by
    by_cases hn : n = 0
    · subst hn; rw [Plot.initialise] at h; simp at h
    · rw [Plot.initialise, if_neg hn] at h
      have hcore := Except.ok.inj h
      have hp : p = (Plot.initialise_core g log10 rid pt cfg n id? ax? dtl).1 := by
        rw [hcore]
      subst hp
      have hf := initialise_core_flags g log10 rid pt cfg n id? ax? dtl
      exact ⟨hf.2.1, hf.2.2.2, hf.1, hf.2.2.1⟩
  refine ⟨hflags, ?_, ?_, ?_, ?_⟩
  · intro hcN
    rw [Option.isNone_iff_eq_none] at hcN
    simp [p_active_of, Conf.getD, hcN, CVal.isTrueLit]
  · intro hpa
    rw [p_active_of, Bool.and_eq_true] at hpa
    refine ⟨hpa.1, ?_⟩
    cases hv : Conf.get? cfg "cpswitch_c_active" with
    | none =>
      exfalso
      have hx := hpa.2
      rw [Conf.getD, hv] at hx
      simp [CVal.isTrueLit] at hx
    | some v =>
      refine ⟨v, rfl, ?_⟩
      have hx := hpa.2
      rw [Conf.getD, hv] at hx
      simpa using hx
  · intro hla
    rw [add_log_tab_of, Bool.and_eq_true] at hla
    constructor
    · have hx := hla.2
      simpa [decide_eq_true_eq] using hx
    · cases hv : Conf.get? cfg "logswitch" with
      | none =>
        exfalso
        have hx := hla.1
        rw [Conf.getD, hv] at hx
        simp [CVal.truthy] at hx
      | some v =>
        refine ⟨v, rfl, ?_⟩
        have hx := hla.1
        rw [Conf.getD, hv] at hx
        exact hx
  · intro hlN
    rw [Option.isNone_iff_eq_none] at hlN
    simp [add_log_tab_of, Conf.getD, hlN, CVal.truthy]

/-- Witness for C5: with `cpswitch_c_active = False` the percentage view is
default-active and the constructed plot reflects the formulas; with an empty
config it is not. -/
theorem claim_C5_witness :
    (Plot.initialise_core egGlobals egLog10 "abcdefghij" PlotType.bar
        [("cpswitch_c_active", CVal.vbool false)] 1 none none none).1.p_active =
      p_active_of [("cpswitch_c_active", CVal.vbool false)] PlotType.bar ∧
    p_active_of [] PlotType.bar = false ∧
    add_pct_tab_of [("cpswitch_c_active", CVal.vbool false)] PlotType.bar = true :=
  have h := claim_C5 egGlobals egLog10 "abcdefghij"
    [("cpswitch_c_active", CVal.vbool false)] PlotType.bar 1 none none none _ _ rfl
  have h0 := claim_C5 egGlobals egLog10 "abcdefghij" [] PlotType.bar 1 none none none _ _ rfl
  ⟨h.1.2.1, h0.2.1 rfl, (h.2.2.1 rfl).1⟩

/-- Claim C6: dataset uids at construction - with one dataset the uid is the
chart id with no suffix; with more than one dataset the uid at index i is
the chart id suffixed `_(i+1)` (1-based); uids are pairwise distinct. -/
theorem claim_C6 (g : Globals) (log10 : ℚ → ℚ) (rid : String) (pt : PlotType) (cfg : Conf)
    (n : ℕ) (id? : Option String) (ax? : Option (List AxisKey)) (dtl : Option String)
    (p : Plot) (ws : List String)
    (h : Plot.initialise g log10 rid pt cfg n id? ax? dtl = Except.ok (p, ws)) :
    (n = 1 → p.datasets.map (fun d => d.uid) = [p.id]) ∧
    (n > 1 → ∀ (i : ℕ) (di : BaseDataset), p.datasets[i]? = some di →
      di.uid = p.id ++ "_" ++ pyStr (i + 1)) ∧
    (∀ (i j : ℕ) (di dj : BaseDataset), i ≠ j → p.datasets[i]? = some di →
      p.datasets[j]? = some dj → di.uid ≠ dj.uid) := by
  by_cases hn : n = 0
  · subst hn; rw [Plot.initialise] at h; simp at h
  · rw [Plot.initialise, if_neg hn] at h
    have hcore := Except.ok.inj h
    have hp : p = (Plot.initialise_core g log10 rid pt cfg n id? ax? dtl).1 := by
      rw [hcore]
    subst hp
    refine ⟨?_, ?_, ?_⟩
    · intro h1
      subst h1
      rw [initialise_core_datasets, initialise_core_id]
      rfl
    · intro hgt i di hdi
      have hu := initialise_core_uid_at g log10 rid pt cfg n id? ax? dtl i di hdi
      rw [initialise_core_id, hu.2, if_pos hgt]
    · intro i j di dj hij hdi hdj
      have hi := initialise_core_uid_at g log10 rid pt cfg n id? ax? dtl i di hdi
      have hj := initialise_core_uid_at g log10 rid pt cfg n id? ax? dtl j dj hdj
      by_cases hgt : n > 1
      · rw [hi.2, hj.2, if_pos hgt, if_pos hgt]
        intro heq
        have hinj := pyStr_tag_inj (resolve_plot_id cfg id? rid) heq
        exact hij (by omega)
      · have hi1 := hi.1
        have hj1 := hj.1
        exact absurd (by omega : i = j) hij

/-- Witness for C6 on a concrete two-dataset chart with id `plt`: the first
uid is `plt_1` and it differs from the second. -/
theorem claim_C6_witness :
    egDs2a.uid = egInitCore2.1.id ++ "_" ++ pyStr 1 ∧
    egDs2a.uid ≠ egDs2b.uid :=
  have h := claim_C6 egGlobals egLog10 "abcdefghij" PlotType.bar [] 2 (some "plt") none none
    egInitCore2.1 egInitCore2.2 rfl
  ⟨h.2.1 (by norm_num) 0 egDs2a rfl, h.2.2 0 1 egDs2a egDs2b (by norm_num) rfl rfl⟩

/-- Counterexample to claim C8 as stated: a per-dataset override of invalid
type (the number 42) does NOT make the label fall back to the 1-based index
string `"1"` - the source wraps the invalid value as a name entry and the
label becomes the value itself. -/
theorem claim_C8_counterexample :
    Except.map (fun x => x.1.datasets.map (fun d => d.label))
      (Plot.initialise egGlobals egLog10 "abcdefghij" PlotType.bar
        [("data_labels", CVal.vlist [CVal.vnum 42])] 1 none none none) =
      Except.ok [CVal.vnum 42] ∧
    CVal.vnum 42 ≠ CVal.vstr "1" :=
  ⟨rfl, by simp⟩

/-- Claim C8 (amended): an override entry of unexpected type does not fail
construction - a warning is logged - but the dataset's label becomes the
invalid value itself (used as a name), not the 1-based index string. -/
theorem claim_C8 (g : Globals) (log10 : ℚ → ℚ) (rid : String) (pt : PlotType) (cfg : Conf)
    (n : ℕ) (id? : Option String) (ax? : Option (List AxisKey)) (dtl : Option String)
    (p : Plot) (ws : List String) (idx : ℕ) (v : CVal)
    (h : Plot.initialise g log10 rid pt cfg n id? ax? dtl = Except.ok (p, ws))
    (hidx : idx < n)
    (hv : (data_labels_of cfg)[idx]? = some v)
    (hbad : v.isStrOrDict = false) :
    (p.datasets[idx]?).map (fun d => d.label) = some v ∧
    ("Invalid data_labels type: " ++ v.pyTypeName ++ ". Must be a string or a dict.") ∈ ws := by
  have hn : ¬ n = 0 := by omega
  rw [Plot.initialise, if_neg hn] at h
  have hcore := Except.ok.inj h
  have hp : p = (Plot.initialise_core g log10 rid pt cfg n id? ax? dtl).1 := by
    rw [hcore]
  have hws : ws = (Plot.initialise_core g log10 rid pt cfg n id? ax? dtl).2 := by
    rw [hcore]
  subst hp
  subst hws
  constructor
  · rw [initialise_core_datasets, List.getElem?_map, List.getElem?_map,
      List.getElem?_range hidx]
    simp only [Option.map_some']
    rw [build_dataset_label_invalid cfg (data_labels_of cfg) dtl
      (resolve_plot_id cfg id? rid) n idx v hv hbad]
  · rw [initialise_core_warns]
    apply List.mem_append_right
    apply List.mem_flatten.mpr
    refine ⟨(build_dataset cfg (data_labels_of cfg) dtl (resolve_plot_id cfg id? rid)
      n idx).2, ?_, ?_⟩
    · have hmem : (((List.range n).map
          (build_dataset cfg (data_labels_of cfg) dtl (resolve_plot_id cfg id? rid) n)).map
          Prod.snd)[idx]? =
          some (build_dataset cfg (data_labels_of cfg) dtl (resolve_plot_id cfg id? rid)
            n idx).2 := by
        rw [List.getElem?_map, List.getElem?_map, List.getElem?_range hidx]
        rfl
      exact List.getElem?_mem hmem
    · rw [build_dataset_warns_invalid cfg (data_labels_of cfg) dtl
        (resolve_plot_id cfg id? rid) n idx v hv hbad]
      simp

/-- Witness for C8 on the concrete chart whose only data_labels entry is the
number 42. -/
theorem claim_C8_witness :
    ((Plot.initialise_core egGlobals egLog10 "abcdefghij" PlotType.bar
        [("data_labels", CVal.vlist [CVal.vnum 42])] 1 none none none).1.datasets[0]?).map
      (fun d => d.label) = some (CVal.vnum 42) ∧
    ("Invalid data_labels type: " ++ (CVal.vnum 42).pyTypeName ++
      ". Must be a string or a dict.") ∈
      (Plot.initialise_core egGlobals egLog10 "abcdefghij" PlotType.bar
        [("data_labels", CVal.vlist [CVal.vnum 42])] 1 none none none).2 :=
  claim_C8 egGlobals egLog10 "abcdefghij" PlotType.bar
    [("data_labels", CVal.vlist [CVal.vnum 42])] 1 none none none _ _ 0 (CVal.vnum 42)
    rfl (by norm_num) rfl rfl

/-- Counterexample to claim C4 as stated: on a one-dataset bar chart with
the percentage toggle (uid `p1`), the raw image is addressed `p1-cnt`, which
is not of the claimed form - the claim promises no suffix for the raw
combination. -/
theorem claim_C4_counterexample :
    Except.map (fun l => l.map (fun c => c.file_name))
      (Plot.flat_plot egLog10 egGlobals egPlot) =
      Except.ok [some "p1-cnt", some "p1-pct"] ∧
    egPlot.datasets.map (fun d => d.uid) = ["p1"] ∧
    ¬ (("p1-cnt" : String) ∈ (["p1", "p1-pct", "p1-log", "p1-pct-log"] : List String)) :=
  ⟨rfl, rfl, by decide⟩

/-- Claim C4 (amended): flat rendering always succeeds producing, per
dataset, exactly `2 ^ (hasLogToggle + hasPercentToggle)` static images - one
per reachable (percent x log) combination - addressed `{uid}-pct`,
`{uid}-log`, `{uid}-pct-log` for the toggled views and, for the raw view,
`{uid}` when the chart has no toggles and `{uid}-cnt` otherwise. -/
theorem claim_C4 (log10 : ℚ → ℚ) (g : Globals) (p : Plot) (i : ℕ) (d : BaseDataset) :
    Plot.flat_plot log10 g p =
      Except.ok ((p.datasets.enum.map (fun x => spec_dataset_images p x.1 x.2)).flatten) ∧
    (spec_dataset_images p i d).length =
      2 ^ ((if p.add_pct_tab then 1 else 0) + (if p.add_log_tab then 1 else 0)) := by
  constructor
  · rw [Plot.flat_plot, flat_plot_aux_eq]
    rfl
  · cases hp : p.add_pct_tab <;> cases hl : p.add_log_tab <;>
      simp [spec_dataset_images, hp, hl]

/-- Claim C1: rendering a dataset at (isLog=true, isPercent=true) and then
rendering the same dataset at (isLog=false, isPercent=false) leaves the plot
and dataset untouched, is identical to rendering the raw view directly, and
reproduces the configured bound pair (base layout merged with the dataset's
layout overrides) exactly on every axis. -/
theorem claim_C1 (log10 : ℚ → ℚ) (p : Plot) (i : ℕ) (flat : Bool)
    (r1 r2 : Plot × BaseDataset × Figure)
    (h1 : Plot.get_figure log10 p i true true flat = Except.ok r1)
    (h2 : Plot.get_figure log10 r1.1 i false false flat = Except.ok r2) :
    r1.1 = p ∧ r2.1 = p ∧ r2.2.1 = r1.2.1 ∧
    Plot.get_figure log10 p i false false flat = Except.ok r2 ∧
    ∀ a, ((r2.2.2.layout.getAxis a).autorangeoptions.minallowed =
            ((applyDsLayout p.layout r2.2.1.layout).getAxis a).autorangeoptions.minallowed ∧
          (r2.2.2.layout.getAxis a).autorangeoptions.maxallowed =
            ((applyDsLayout p.layout r2.2.1.layout).getAxis a).autorangeoptions.maxallowed) := by
  unfold Plot.get_figure at h1
  cases hd : p.datasets[i]? with
  | none =>
    rw [hd] at h1
    simp at h1
  | some d =>
    rw [hd] at h1
    have hr1 : Plot.get_figure_ds log10 p d true true flat = r1 := Except.ok.inj h1
    subst hr1
    unfold Plot.get_figure at h2
    rw [Plot.get_figure_ds_fst, hd] at h2
    have hr2 : Plot.get_figure_ds log10 p d false false flat = r2 := Except.ok.inj h2
    subst hr2
    refine ⟨rfl, rfl, rfl, ?_, ?_⟩
    · unfold Plot.get_figure
      rw [hd]
    · intro a
      constructor
      · rw [Plot.get_figure_ds_snd_fst, Plot.get_figure_ds_layout, foldl_resolve_ff_aro]
        cases flat <;> cases a <;> rfl
      · rw [Plot.get_figure_ds_snd_fst, Plot.get_figure_ds_layout, foldl_resolve_ff_aro]
        cases flat <;> cases a <;> rfl

/-- Witness for C1: the concrete round-trip on `egPlot` - the raw re-render
equals the direct raw render and restores the configured y bounds. -/
theorem claim_C1_witness :
    egR2.1 = egPlot ∧
    Plot.get_figure egLog10 egPlot 0 false false false = Except.ok egR2 ∧
    (egR2.2.2.layout.getAxis AxisKey.yaxis).autorangeoptions.minallowed =
      ((applyDsLayout egPlot.layout egR2.2.1.layout).getAxis
        AxisKey.yaxis).autorangeoptions.minallowed :=
  have h := claim_C1 egLog10 egPlot 0 false egR1 egR2 rfl rfl
  ⟨h.2.1, h.2.2.2.1, (h.2.2.2.2 AxisKey.yaxis).1⟩

end MultiQC
